import Mathlib

/-!
# `NewLoader` (api/internal/loader/loader.go)

A shallow embedding of `loader.NewLoader`, the target classifier of the
kustomize loader package, and the properties of its three resolution
attempts (remote git target, confirmed directory, confirmed file).

`NewLoader` is the only function of the package whose body is in
`loader.go`.  Everything it calls lives elsewhere (`git`, `filesys`,
`errors`, `os`, `path/filepath`, and the loader constructors of the same
package), so those functions are taken as parameters, bundled in
`Collaborators`, and every general theorem holds for every choice of them.
A concrete choice (`sample`) is given further down; it is what the closed
statements are evaluated on.

Go values are embedded as follows.

* A Go result `(v, err)` of which `v` is read only when `err == nil` is an
  `Except Err V`.
* The result `(ifc.Loader, error)` of `newLoaderAtGitClone` and of
  `NewLoader` itself is a pair `Option Ldr × Option Err` (`none` is `nil`),
  since `NewLoader` hands the pair of `newLoaderAtGitClone` back untouched.
* `os.Stat` and `filepath.Abs` read the operating system of the running
  process (its disk, its working directory); `newLoaderAtGitClone` runs
  `git`.  That ambient state is the explicit argument `host`.
  `filesys.ConfirmDir` only reads the `fSys` value it is given.
* Every call `NewLoader` makes is recorded, in order, in `Outcome.calls`.
-/

namespace Kustomize

/-- One call made by `NewLoader`, with the path it is made on when it has one. -/
inductive Call where
  | NewRepoSpecFromURL (target : String)
  | newLoaderAtGitClone
  | ConfirmDir (path : String)
  | newLoaderAtConfirmedDir (root : String)
  | Stat (name : String)
  | WrapPrefixf
  | Name
  | Abs (path : String)
  | Dir (path : String)
  | newLoaderAtConfirmedPath (root : String) (fileName : String)
  deriving DecidableEq, Repr

/-- The functions and values `NewLoader` uses and `loader.go` does not define.
`ConfirmedDir` is a Go string type, so confirmed roots are strings. -/
structure Collaborators (RepoSpec FS LR Cloner Ldr Err Info Host : Type) where
  /-- `git.NewRepoSpecFromURL(target)` -/
  NewRepoSpecFromURL : String → Except Err RepoSpec
  /-- `git.ClonerUsingGitExec` -/
  ClonerUsingGitExec : Cloner
  /-- `newLoaderAtGitClone(repoSpec, fSys, referrer, cloner)` -/
  newLoaderAtGitClone :
    Host → RepoSpec → FS → Option Ldr → Cloner → Option Ldr × Option Err
  /-- `filesys.ConfirmDir(fSys, path)` -/
  ConfirmDir : FS → String → Except Err String
  /-- `newLoaderAtConfirmedDir(lr, root, fSys, referrer, cloner)` -/
  newLoaderAtConfirmedDir : LR → String → FS → Option Ldr → Cloner → Ldr
  /-- `os.Stat(name)` -/
  Stat : Host → String → Except Err Info
  /-- `ErrRtNotDirNorFile` -/
  ErrRtNotDirNorFile : Err
  /-- `err.Error()` -/
  Error : Err → String
  /-- `errors.WrapPrefixf(err, msg)` -/
  WrapPrefixf : Err → String → Err
  /-- `info.Name()` -/
  Name : Info → String
  /-- `filepath.Abs(path)` -/
  Abs : Host → String → Except Err String
  /-- `filepath.Dir(path)` -/
  Dir : String → String
  /-- `newLoaderAtConfirmedPath(lr, root, fileName, fSys, referrer, cloner)` -/
  newLoaderAtConfirmedPath :
    LR → String → String → FS → Option Ldr → Cloner → Ldr

/-- What a run of `NewLoader` did and gave back: the calls it made, in order,
and the Go result pair `(ifc.Loader, error)`. -/
structure Outcome (Ldr Err : Type) where
  calls : List Call
  ret : Option Ldr × Option Err

section Code

variable {RepoSpec FS LR Cloner Ldr Err Info Host : Type}

/-- `NewLoader(lr, target, fSys)` of `loader.go`, run on the host `host`. -/
def NewLoader (c : Collaborators RepoSpec FS LR Cloner Ldr Err Info Host)
    (host : Host) (lr : LR) (target : String) (fSys : FS) : Outcome Ldr Err :=
  match c.NewRepoSpecFromURL target with
  | .ok repoSpec =>
    -- The target qualifies as a remote git target.
    { calls := [.NewRepoSpecFromURL target, .newLoaderAtGitClone]
      ret := c.newLoaderAtGitClone host repoSpec fSys none c.ClonerUsingGitExec }
  | .error _ =>
  match c.ConfirmDir fSys target with
  | .ok root =>
    { calls := [.NewRepoSpecFromURL target, .ConfirmDir target,
                .newLoaderAtConfirmedDir root]
      ret := (some (c.newLoaderAtConfirmedDir lr root fSys none
                c.ClonerUsingGitExec), none) }
  | .error _ =>
  match c.Stat host target with
  | .error err =>
    { calls := [.NewRepoSpecFromURL target, .ConfirmDir target, .Stat target,
                .WrapPrefixf]
      ret := (none, some (c.WrapPrefixf err (c.Error c.ErrRtNotDirNorFile))) }
  | .ok info =>
  let fileName := c.Name info
  match c.Abs host target with
  | .error err =>
    { calls := [.NewRepoSpecFromURL target, .ConfirmDir target, .Stat target,
                .Name, .Abs target]
      ret := (none, some err) }
  | .ok absPath =>
  match c.ConfirmDir fSys (c.Dir absPath) with
  | .error err =>
    { calls := [.NewRepoSpecFromURL target, .ConfirmDir target, .Stat target,
                .Name, .Abs target, .Dir absPath, .ConfirmDir (c.Dir absPath)]
      ret := (none, some err) }
  | .ok root =>
    { calls := [.NewRepoSpecFromURL target, .ConfirmDir target, .Stat target,
                .Name, .Abs target, .Dir absPath, .ConfirmDir (c.Dir absPath),
                .newLoaderAtConfirmedPath root fileName]
      ret := (some (c.newLoaderAtConfirmedPath lr root fileName fSys none
                c.ClonerUsingGitExec), none) }

/-- Modelled from the spec: step 1 of section 4.2 says of the clone
constructor, which is not in `loader.go`, that the loader it builds has its
"restriction policy forced to root-only".  `policy` reads the restrictor a
loader carries. -/
def ClonesRootOnly (c : Collaborators RepoSpec FS LR Cloner Ldr Err Info Host)
    (policy : Ldr → LR) (rootOnly : LR) : Prop :=
  ∀ host repoSpec fSys referrer cloner l,
    (c.newLoaderAtGitClone host repoSpec fSys referrer cloner).1 = some l →
      policy l = rootOnly

/-- The call is a look at the local filesystem: `ConfirmDir` or `os.Stat`. -/
def Call.isLocalLookup : Call → Bool
  | .ConfirmDir _ => true
  | .Stat _ => true
  | _ => false

end Code

/-! ## Sample collaborators

A concrete choice of every parameter, small enough to evaluate by hand:
an in-memory filesystem given by its directories and files, a host given
by the names `os.Stat` finds and its working directory, and loaders that
are the record of how they were constructed. -/

/-- Errors of the sample collaborators. -/
inductive SampleErr where
  /-- the target is not a remote reference at all -/
  | notRemote (target : String)
  /-- the target starts like a remote reference and is rejected -/
  | malformedRemote (target : String)
  | cloneFailed (repo : String)
  | notDirectory (path : String)
  | noSuchFile (name : String)
  | noWorkingDirectory
  | errorf (msg : String)
  | wrapped (inner : SampleErr) (msg : String)
  deriving DecidableEq, Repr

/-- The two canonical restrictors. -/
inductive SampleRestrictor where
  | RestrictionRootOnly
  | RestrictionNone
  deriving DecidableEq, Repr

inductive SampleCloner where
  | gitExec
  | other
  deriving DecidableEq, Repr

structure SampleRepoSpec where
  raw : String
  deriving DecidableEq, Repr

structure SampleInfo where
  name : String
  deriving DecidableEq, Repr

/-- An in-memory filesystem: the directories and the files it holds, each
under the spelling `ConfirmDir` confirms it by. -/
structure SampleFS where
  dirs : List String
  files : List String
  deriving DecidableEq, Repr

/-- The operating system of the process: the names `os.Stat` resolves, the
working directory when it can be obtained, and the repositories `git` can
clone. -/
structure SampleHost where
  names : List String
  cwd : Option String
  remotes : List String
  deriving DecidableEq, Repr

/-- Modelled from the spec: the Loader of section 3, `{ResolvedRoot,
RestrictionPolicy, Cloner reference, parent-chain}`; the type and its
constructors are not in `loader.go`.  `referrer` is the parent chain. -/
inductive SampleLoader where
  | mk (referrer : Option SampleLoader) (root : String)
      (restrictor : SampleRestrictor) (fileName : Option String)
      (fSys : SampleFS) (cloner : SampleCloner)
      (repoSpec : Option SampleRepoSpec)

/-- The restrictor a sample loader carries. -/
def SampleLoader.restrictor : SampleLoader → SampleRestrictor
  | .mk _ _ lr _ _ _ _ => lr

/-- Sample `git.NewRepoSpecFromURL`: after `https://` a host and a path are
required; a target that starts with `https://` without them is malformed,
any other target is not a remote reference. -/
def sampleNewRepoSpecFromURL (target : String) : Except SampleErr SampleRepoSpec :=
  if "https://".toList.isPrefixOf target.toList then
    match target.toList.drop 8 with
    | [] => .error (.malformedRemote target)
    | '/' :: _ => .error (.malformedRemote target)
    | rest =>
      if rest.contains '/' then .ok ⟨target⟩ else .error (.malformedRemote target)
  else .error (.notRemote target)

/-- Modelled from the spec: step 1 of section 4.2, "clone the repository and
construct a Loader rooted at the clone directory with restriction policy
forced to root-only"; `newLoaderAtGitClone` is not in `loader.go`. -/
def sampleNewLoaderAtGitClone (host : SampleHost) (repoSpec : SampleRepoSpec)
    (fSys : SampleFS) (referrer : Option SampleLoader) (cloner : SampleCloner) :
    Option SampleLoader × Option SampleErr :=
  if host.remotes.contains repoSpec.raw then
    (some (.mk referrer "/tmp/kustomize-clone" .RestrictionRootOnly none fSys
      cloner (some repoSpec)), none)
  else (none, some (.cloneFailed repoSpec.raw))

/-- Sample `filesys.ConfirmDir`, on cleaned absolute paths. -/
def sampleConfirmDir (fSys : SampleFS) (path : String) : Except SampleErr String :=
  if path = "" then .error (.errorf "directory path cannot be empty")
  else if fSys.dirs.contains path then .ok path
  else .error (.notDirectory path)

/-- Modelled from the spec: step 2 of section 4.2, "construct a Loader rooted
there with the caller-supplied policy"; `newLoaderAtConfirmedDir` is not
in `loader.go`. -/
def sampleNewLoaderAtConfirmedDir (lr : SampleRestrictor) (root : String)
    (fSys : SampleFS) (referrer : Option SampleLoader) (cloner : SampleCloner) :
    SampleLoader :=
  .mk referrer root lr none fSys cloner none

/-- The last element of a path: what follows its last slash. -/
def lastElement (cs : List Char) : List Char :=
  (cs.reverse.takeWhile (fun ch => ch != '/')).reverse

/-- Sample `os.Stat`: the name is found or it is not. -/
def sampleStat (host : SampleHost) (name : String) : Except SampleErr SampleInfo :=
  if host.names.contains name then .ok ⟨String.mk (lastElement name.toList)⟩
  else .error (.noSuchFile name)

/-- Sample `filepath.Abs`, on cleaned paths: a rooted path is its own
absolute path, any other is joined to the working directory. -/
def sampleAbs (host : SampleHost) (path : String) : Except SampleErr String :=
  match path.toList with
  | '/' :: _ => .ok path
  | _ =>
    match host.cwd with
    | some wd => .ok (wd ++ "/" ++ path)
    | none => .error .noWorkingDirectory

/-- Sample `filepath.Dir`, on cleaned absolute paths: all but the last
element, without the trailing slash unless it is the root. -/
def sampleDir (path : String) : String :=
  match (path.toList.reverse.dropWhile (fun ch => ch != '/')).drop 1 with
  | [] => "/"
  | cs => String.mk cs.reverse

/-- Modelled from the spec: step 3 of section 4.2, "construct a Loader rooted
at the parent directory (restricted per caller policy) that additionally
remembers the specific file name as the initial load target";
`newLoaderAtConfirmedPath` is not in `loader.go`. -/
def sampleNewLoaderAtConfirmedPath (lr : SampleRestrictor) (root : String)
    (fileName : String) (fSys : SampleFS) (referrer : Option SampleLoader)
    (cloner : SampleCloner) : SampleLoader :=
  .mk referrer root lr (some fileName) fSys cloner none

/-- The sample collaborators, bundled. -/
def sample : Collaborators SampleRepoSpec SampleFS SampleRestrictor SampleCloner
    SampleLoader SampleErr SampleInfo SampleHost where
  NewRepoSpecFromURL := sampleNewRepoSpecFromURL
  ClonerUsingGitExec := .gitExec
  newLoaderAtGitClone := sampleNewLoaderAtGitClone
  ConfirmDir := sampleConfirmDir
  newLoaderAtConfirmedDir := sampleNewLoaderAtConfirmedDir
  Stat := sampleStat
  ErrRtNotDirNorFile := .errorf "target is neither a directory nor a file"
  Error := fun
    | .errorf msg => msg
    | _ => "error"
  WrapPrefixf := .wrapped
  Name := SampleInfo.name
  Abs := sampleAbs
  Dir := sampleDir
  newLoaderAtConfirmedPath := sampleNewLoaderAtConfirmedPath

/-- An in-memory filesystem holding `/cfg/app/kustomization.yaml`. -/
def appFS : SampleFS :=
  { dirs := ["/", "/cfg", "/cfg/app"], files := ["/cfg/app/kustomization.yaml"] }

/-- An in-memory filesystem holding nothing but its root. -/
def bareFS : SampleFS := { dirs := ["/"], files := [] }

/-- A host whose disk holds `/cfg/app/kustomization.yaml` and which can clone
`https://example.com/org/repo//overlays/prod?ref=v2`. -/
def appHost : SampleHost :=
  { names := ["/", "/cfg", "/cfg/app", "/cfg/app/kustomization.yaml"]
    cwd := some "/home/user"
    remotes := ["https://example.com/org/repo//overlays/prod?ref=v2"] }

/-- The same host with a disk that holds none of the sample paths. -/
def bareHost : SampleHost := { appHost with names := ["/"] }

/-- An in-memory filesystem with a directory spelled like the remote target
`https://example.com/org/repo//overlays/prod?ref=v2`. -/
def shadowFS : SampleFS :=
  { dirs := ["/", "https://example.com/org/repo//overlays/prod?ref=v2"], files := [] }

/-- A host without network: `git` can clone nothing. -/
def offlineHost : SampleHost := { appHost with remotes := [] }

/-- A host that resolves the relative name `kustomization.yaml` and cannot
report its working directory. -/
def lostHost : SampleHost :=
  { names := ["kustomization.yaml"], cwd := none, remotes := [] }


/-! ## The remote branch -/

/-- The sample `newLoaderAtGitClone` builds root-only loaders. -/
theorem sample_ClonesRootOnly :
    ClonesRootOnly sample SampleLoader.restrictor .RestrictionRootOnly := by
  intro host repoSpec fSys referrer cloner l hl
  simp only [sample, sampleNewLoaderAtGitClone] at hl
  split at hl
  · simp only [Option.some.injEq] at hl
    rw [← hl]
    rfl
  · simp at hl

section Theorems

variable {RepoSpec FS LR Cloner Ldr Err Info Host : Type}

/-- C1: when `git.NewRepoSpecFromURL(target)` succeeds with `repoSpec`, then
for every restrictor, filesystem and host, `NewLoader` returns exactly the
pair `newLoaderAtGitClone(repoSpec, fSys, nil, git.ClonerUsingGitExec)`
returns, a clone error included, and the only calls it makes are the parse
and the clone: neither `ConfirmDir` nor `os.Stat` is consulted. -/
theorem NewLoader_remote_is_git_clone
    (c : Collaborators RepoSpec FS LR Cloner Ldr Err Info Host)
    (host : Host) (lr : LR) (target : String) (fSys : FS) (repoSpec : RepoSpec)
    (hparse : c.NewRepoSpecFromURL target = .ok repoSpec) :
    (NewLoader c host lr target fSys).ret
        = c.newLoaderAtGitClone host repoSpec fSys none c.ClonerUsingGitExec
      ∧ (NewLoader c host lr target fSys).calls
        = [.NewRepoSpecFromURL target, .newLoaderAtGitClone]
      ∧ ∀ k ∈ (NewLoader c host lr target fSys).calls, k.isLocalLookup = false := by
  simp [NewLoader, hparse, Call.isLocalLookup]

/-- C1 on the sample: the filesystem has a directory spelled like the
remote target and the clone fails; the clone error is what comes back, and
the directory is not looked at. -/
theorem NewLoader_remote_is_git_clone_witness :
    sample.NewRepoSpecFromURL "https://example.com/org/repo//overlays/prod?ref=v2"
        = .ok ⟨"https://example.com/org/repo//overlays/prod?ref=v2"⟩
      ∧ sample.ConfirmDir shadowFS "https://example.com/org/repo//overlays/prod?ref=v2"
        = .ok "https://example.com/org/repo//overlays/prod?ref=v2"
      ∧ (NewLoader sample offlineHost .RestrictionNone
          "https://example.com/org/repo//overlays/prod?ref=v2" shadowFS).ret
        = (none, some (.cloneFailed "https://example.com/org/repo//overlays/prod?ref=v2"))
      ∧ (NewLoader sample offlineHost .RestrictionNone
          "https://example.com/org/repo//overlays/prod?ref=v2" shadowFS).calls
        = [.NewRepoSpecFromURL "https://example.com/org/repo//overlays/prod?ref=v2",
           .newLoaderAtGitClone] :=
  ⟨rfl, rfl,
   (NewLoader_remote_is_git_clone sample offlineHost .RestrictionNone
      "https://example.com/org/repo//overlays/prod?ref=v2" shadowFS
      ⟨"https://example.com/org/repo//overlays/prod?ref=v2"⟩ rfl).1,
   (NewLoader_remote_is_git_clone sample offlineHost .RestrictionNone
      "https://example.com/org/repo//overlays/prod?ref=v2" shadowFS
      ⟨"https://example.com/org/repo//overlays/prod?ref=v2"⟩ rfl).2.1⟩

/-- C2: when `target` qualifies as a remote git target, the restrictor the
caller passes has no influence: `NewLoader(lr1, target, fSys)` and
`NewLoader(lr2, target, fSys)` make the same calls and return the same pair,
the one of `newLoaderAtGitClone`, which is not given any restrictor; so when
`newLoaderAtGitClone` builds root-only loaders, the loader `NewLoader`
returns is root-only whatever `lr` is. -/
theorem NewLoader_remote_ignores_restrictor
    (c : Collaborators RepoSpec FS LR Cloner Ldr Err Info Host)
    (host : Host) (lr1 lr2 : LR) (target : String) (fSys : FS) (repoSpec : RepoSpec)
    (hparse : c.NewRepoSpecFromURL target = .ok repoSpec) :
    NewLoader c host lr1 target fSys = NewLoader c host lr2 target fSys
      ∧ (NewLoader c host lr1 target fSys).ret
        = c.newLoaderAtGitClone host repoSpec fSys none c.ClonerUsingGitExec
      ∧ ∀ (policy : Ldr → LR) (rootOnly : LR), ClonesRootOnly c policy rootOnly →
          ∀ l, (NewLoader c host lr1 target fSys).ret.1 = some l →
            policy l = rootOnly := by
  refine ⟨by simp [NewLoader, hparse], by simp [NewLoader, hparse], ?_⟩
  intro policy rootOnly hclone l hl
  simp only [NewLoader, hparse] at hl
  exact hclone host repoSpec fSys none c.ClonerUsingGitExec l hl

/-- C2 on the sample: asked for no restriction or for root-only, the loader of
the cloned repository is the same one, and it is root-only. -/
theorem NewLoader_remote_ignores_restrictor_witness :
    sample.NewRepoSpecFromURL "https://example.com/org/repo//overlays/prod?ref=v2"
        = .ok ⟨"https://example.com/org/repo//overlays/prod?ref=v2"⟩
      ∧ NewLoader sample appHost .RestrictionNone
          "https://example.com/org/repo//overlays/prod?ref=v2" bareFS
        = NewLoader sample appHost .RestrictionRootOnly
          "https://example.com/org/repo//overlays/prod?ref=v2" bareFS
      ∧ SampleLoader.restrictor
          (.mk none "/tmp/kustomize-clone" .RestrictionRootOnly none bareFS .gitExec
            (some ⟨"https://example.com/org/repo//overlays/prod?ref=v2"⟩))
        = .RestrictionRootOnly :=
  ⟨rfl,
   (NewLoader_remote_ignores_restrictor sample appHost .RestrictionNone
      .RestrictionRootOnly "https://example.com/org/repo//overlays/prod?ref=v2"
      bareFS ⟨"https://example.com/org/repo//overlays/prod?ref=v2"⟩ rfl).1,
   (NewLoader_remote_ignores_restrictor sample appHost .RestrictionNone
      .RestrictionRootOnly "https://example.com/org/repo//overlays/prod?ref=v2"
      bareFS ⟨"https://example.com/org/repo//overlays/prod?ref=v2"⟩ rfl).2.2
      SampleLoader.restrictor .RestrictionRootOnly sample_ClonesRootOnly _ rfl⟩

/-! ## The local branches -/

/-- C3: when the parse fails and `filesys.ConfirmDir(fSys, target)` succeeds
with root `r`, `NewLoader` returns a nil error and the loader
`newLoaderAtConfirmedDir(lr, r, fSys, nil, git.ClonerUsingGitExec)`; it calls
neither `os.Stat` nor `filepath.Abs`, so the outcome is the same on every
host and for every behaviour of those two functions. -/
theorem NewLoader_confirmed_dir
    (c : Collaborators RepoSpec FS LR Cloner Ldr Err Info Host)
    (host : Host) (lr : LR) (target : String) (fSys : FS) (e : Err) (r : String)
    (hparse : c.NewRepoSpecFromURL target = .error e)
    (hdir : c.ConfirmDir fSys target = .ok r) :
    (NewLoader c host lr target fSys).ret
        = (some (c.newLoaderAtConfirmedDir lr r fSys none c.ClonerUsingGitExec), none)
      ∧ (NewLoader c host lr target fSys).calls
        = [.NewRepoSpecFromURL target, .ConfirmDir target, .newLoaderAtConfirmedDir r]
      ∧ ∀ (stat : Host → String → Except Err Info)
          (abs : Host → String → Except Err String) (host2 : Host),
          NewLoader { c with Stat := stat, Abs := abs } host2 lr target fSys
            = NewLoader c host lr target fSys := by
  simp [NewLoader, hparse, hdir]

/-- C3 on the sample: the directory `/cfg/app` of the in-memory filesystem,
on a host whose disk does not have it. -/
theorem NewLoader_confirmed_dir_witness :
    sample.NewRepoSpecFromURL "/cfg/app" = .error (.notRemote "/cfg/app")
      ∧ sample.ConfirmDir appFS "/cfg/app" = .ok "/cfg/app"
      ∧ (NewLoader sample bareHost .RestrictionNone "/cfg/app" appFS).ret
        = (some (.mk none "/cfg/app" .RestrictionNone none appFS .gitExec none), none) :=
  ⟨rfl, rfl,
   (NewLoader_confirmed_dir sample bareHost .RestrictionNone "/cfg/app" appFS
      (.notRemote "/cfg/app") "/cfg/app" rfl rfl).1⟩

/-- C4: when the parse fails, `ConfirmDir(fSys, target)` fails, `os.Stat(target)`
succeeds with `info`, `filepath.Abs(target)` gives `p` and
`ConfirmDir(fSys, filepath.Dir(p))` succeeds with root `r`, `NewLoader` returns
a nil error and the loader
`newLoaderAtConfirmedPath(lr, r, info.Name(), fSys, nil, git.ClonerUsingGitExec)`:
rooted at the confirmed parent directory, restricted by the caller's `lr`,
remembering the file name of the target. -/
theorem NewLoader_confirmed_file
    (c : Collaborators RepoSpec FS LR Cloner Ldr Err Info Host)
    (host : Host) (lr : LR) (target : String) (fSys : FS) (e1 e2 : Err)
    (info : Info) (p r : String)
    (hparse : c.NewRepoSpecFromURL target = .error e1)
    (hdir : c.ConfirmDir fSys target = .error e2)
    (hstat : c.Stat host target = .ok info)
    (habs : c.Abs host target = .ok p)
    (hparent : c.ConfirmDir fSys (c.Dir p) = .ok r) :
    (NewLoader c host lr target fSys).ret
      = (some (c.newLoaderAtConfirmedPath lr r (c.Name info) fSys none
          c.ClonerUsingGitExec), none) := by
  simp [NewLoader, hparse, hdir, hstat, habs, hparent]

/-- C4 on the sample: the target `/cfg/app/kustomization.yaml` gives a loader
rooted at `/cfg/app` with file name `kustomization.yaml`. -/
theorem NewLoader_confirmed_file_witness :
    sample.NewRepoSpecFromURL "/cfg/app/kustomization.yaml"
        = .error (.notRemote "/cfg/app/kustomization.yaml")
      ∧ sample.ConfirmDir appFS "/cfg/app/kustomization.yaml"
        = .error (.notDirectory "/cfg/app/kustomization.yaml")
      ∧ sample.Stat appHost "/cfg/app/kustomization.yaml" = .ok ⟨"kustomization.yaml"⟩
      ∧ sample.Abs appHost "/cfg/app/kustomization.yaml" = .ok "/cfg/app/kustomization.yaml"
      ∧ sample.ConfirmDir appFS (sample.Dir "/cfg/app/kustomization.yaml") = .ok "/cfg/app"
      ∧ (NewLoader sample appHost .RestrictionNone "/cfg/app/kustomization.yaml" appFS).ret
        = (some (.mk none "/cfg/app" .RestrictionNone (some "kustomization.yaml") appFS
            .gitExec none), none) :=
  ⟨rfl, rfl, rfl, rfl, rfl,
   NewLoader_confirmed_file sample appHost .RestrictionNone
     "/cfg/app/kustomization.yaml" appFS (.notRemote "/cfg/app/kustomization.yaml")
     (.notDirectory "/cfg/app/kustomization.yaml") ⟨"kustomization.yaml"⟩
     "/cfg/app/kustomization.yaml" "/cfg/app" rfl rfl rfl rfl rfl⟩

/-! ## Failures of the local branches -/

/-- C5, counterexample: `/cfg/app/kustomization.yaml` is on the host's disk
and its parent is not a directory of the filesystem passed in.  The parse
fails, `ConfirmDir` of the target fails and the file attempt fails (no
loader), yet the error is the one `ConfirmDir` gave for the parent, not
`ErrRtNotDirNorFile`'s message wrapped around anything. -/
theorem NewLoader_file_attempt_failure_not_wrapped :
    sample.NewRepoSpecFromURL "/cfg/app/kustomization.yaml"
        = .error (.notRemote "/cfg/app/kustomization.yaml")
      ∧ sample.ConfirmDir bareFS "/cfg/app/kustomization.yaml"
        = .error (.notDirectory "/cfg/app/kustomization.yaml")
      ∧ (NewLoader sample appHost .RestrictionNone "/cfg/app/kustomization.yaml"
          bareFS).ret = (none, some (.notDirectory "/cfg/app"))
      ∧ ∀ inner : SampleErr,
          (NewLoader sample appHost .RestrictionNone "/cfg/app/kustomization.yaml"
            bareFS).ret
          ≠ (none, some (sample.WrapPrefixf inner
              (sample.Error sample.ErrRtNotDirNorFile))) := by
  refine ⟨rfl, rfl, rfl, ?_⟩
  intro inner h
  have h2 : (some (SampleErr.notDirectory "/cfg/app") : Option SampleErr)
      = some (SampleErr.wrapped inner "target is neither a directory nor a file") :=
    congrArg Prod.snd h
  cases h2

/-- C5, amended: `NewLoader` builds the `ErrRtNotDirNorFile` error (the call
of `errors.WrapPrefixf`) exactly when the parse fails, `ConfirmDir(fSys,
target)` fails and `os.Stat(target)` fails, and then returns no loader and
`ErrRtNotDirNorFile`'s message wrapped around the stat error. -/
theorem NewLoader_not_dir_nor_file
    (c : Collaborators RepoSpec FS LR Cloner Ldr Err Info Host)
    (host : Host) (lr : LR) (target : String) (fSys : FS) :
    (Call.WrapPrefixf ∈ (NewLoader c host lr target fSys).calls ↔
        ∃ e1 e2 e3, c.NewRepoSpecFromURL target = .error e1
          ∧ c.ConfirmDir fSys target = .error e2
          ∧ c.Stat host target = .error e3)
      ∧ (∀ e1 e2 e3, c.NewRepoSpecFromURL target = .error e1 →
          c.ConfirmDir fSys target = .error e2 →
          c.Stat host target = .error e3 →
          (NewLoader c host lr target fSys).ret
            = (none, some (c.WrapPrefixf e3 (c.Error c.ErrRtNotDirNorFile)))) := by
  refine ⟨?_, ?_⟩
  · cases h1 : c.NewRepoSpecFromURL target with
    | ok repoSpec => simp [NewLoader, h1]
    | error e1 =>
      cases h2 : c.ConfirmDir fSys target with
      | ok r => simp [NewLoader, h1, h2]
      | error e2 =>
        cases h3 : c.Stat host target with
        | error e3 => simp [NewLoader, h1, h2, h3]
        | ok info =>
          cases h4 : c.Abs host target with
          | error e4 => simp [NewLoader, h1, h2, h3, h4]
          | ok p =>
            cases h5 : c.ConfirmDir fSys (c.Dir p) with
            | error e5 => simp [NewLoader, h1, h2, h3, h4, h5]
            | ok r => simp [NewLoader, h1, h2, h3, h4, h5]
  · intro e1 e2 e3 h1 h2 h3
    simp [NewLoader, h1, h2, h3]

/-- C5, amended, on the sample: a target that is nowhere gives the wrapped
stat error. -/
theorem NewLoader_not_dir_nor_file_witness :
    Call.WrapPrefixf ∈ (NewLoader sample appHost .RestrictionNone
        "not-a-path-and-not-a-url" appFS).calls
      ∧ (NewLoader sample appHost .RestrictionNone "not-a-path-and-not-a-url"
          appFS).ret
        = (none, some (.wrapped (.noSuchFile "not-a-path-and-not-a-url")
            "target is neither a directory nor a file")) :=
  ⟨(NewLoader_not_dir_nor_file sample appHost .RestrictionNone
      "not-a-path-and-not-a-url" appFS).1.2
      ⟨.notRemote "not-a-path-and-not-a-url",
       .notDirectory "not-a-path-and-not-a-url",
       .noSuchFile "not-a-path-and-not-a-url", rfl, rfl, rfl⟩,
   (NewLoader_not_dir_nor_file sample appHost .RestrictionNone
      "not-a-path-and-not-a-url" appFS).2 _ _ _ rfl rfl rfl⟩

/-- C6, counterexample: the sample parse rejects `https://example.com` as a
malformed remote reference (no repository path), and `NewLoader` goes on to
`ConfirmDir` and `os.Stat` on that target all the same. -/
theorem NewLoader_malformed_remote_reaches_local :
    sample.NewRepoSpecFromURL "https://example.com"
        = .error (.malformedRemote "https://example.com")
      ∧ (NewLoader sample appHost .RestrictionNone "https://example.com" appFS).calls
        = [.NewRepoSpecFromURL "https://example.com", .ConfirmDir "https://example.com",
           .Stat "https://example.com", .WrapPrefixf]
      ∧ ¬ ∀ k ∈ (NewLoader sample appHost .RestrictionNone "https://example.com"
            appFS).calls, k.isLocalLookup = false := by
  refine ⟨rfl, rfl, ?_⟩
  intro h
  have h2 := h (.ConfirmDir "https://example.com") (by decide)
  simp [Call.isLocalLookup] at h2

/-- C6, amended: whenever the parse returns an error, whatever the error says,
`NewLoader` falls through to local handling: its next call is
`ConfirmDir(fSys, target)`, and the outcome is the one it would have for any
other parse error. -/
theorem NewLoader_parse_error_falls_through
    (c : Collaborators RepoSpec FS LR Cloner Ldr Err Info Host)
    (host : Host) (lr : LR) (target : String) (fSys : FS) (e : Err)
    (hparse : c.NewRepoSpecFromURL target = .error e) :
    (NewLoader c host lr target fSys).calls.take 2
        = [.NewRepoSpecFromURL target, .ConfirmDir target]
      ∧ ∀ e2 : Err,
          NewLoader { c with NewRepoSpecFromURL := fun _ => .error e2 } host lr
            target fSys = NewLoader c host lr target fSys := by
  constructor
  · cases h2 : c.ConfirmDir fSys target with
    | ok r => simp [NewLoader, hparse, h2]
    | error e2 =>
      cases h3 : c.Stat host target with
      | error e3 => simp [NewLoader, hparse, h2, h3]
      | ok info =>
        cases h4 : c.Abs host target with
        | error e4 => simp [NewLoader, hparse, h2, h3, h4]
        | ok p =>
          cases h5 : c.ConfirmDir fSys (c.Dir p) with
          | error e5 => simp [NewLoader, hparse, h2, h3, h4, h5]
          | ok r => simp [NewLoader, hparse, h2, h3, h4, h5]
  · intro e2
    simp [NewLoader, hparse]

/-- C6, amended, on the sample: the malformed `https://example.com` is handled
like a target that is not a remote reference. -/
theorem NewLoader_parse_error_falls_through_witness :
    sample.NewRepoSpecFromURL "https://example.com"
        = .error (.malformedRemote "https://example.com")
      ∧ (NewLoader sample appHost .RestrictionNone "https://example.com"
          appFS).calls.take 2
        = [.NewRepoSpecFromURL "https://example.com", .ConfirmDir "https://example.com"]
      ∧ NewLoader
          { sample with
            NewRepoSpecFromURL := fun _ => .error (.notRemote "https://example.com") }
          appHost .RestrictionNone "https://example.com" appFS
        = NewLoader sample appHost .RestrictionNone "https://example.com" appFS :=
  ⟨rfl,
   (NewLoader_parse_error_falls_through sample appHost .RestrictionNone
      "https://example.com" appFS (.malformedRemote "https://example.com") rfl).1,
   (NewLoader_parse_error_falls_through sample appHost .RestrictionNone
      "https://example.com" appFS (.malformedRemote "https://example.com") rfl).2
      (.notRemote "https://example.com")⟩

/-- C7, the code at the failing input: `/cfg/app/kustomization.yaml` is a file
of the in-memory filesystem `appFS` and is not on the disk of `bareHost`.
`NewLoader` stats the host, not `appFS`, and fails with the
`ErrRtNotDirNorFile` error; on `appHost`, whose disk has the file, the same
`lr`, target and `appFS` give a loader rooted at `/cfg/app`. -/
theorem NewLoader_depends_on_host :
    "/cfg/app/kustomization.yaml" ∈ appFS.files
      ∧ (NewLoader sample bareHost .RestrictionNone "/cfg/app/kustomization.yaml"
          appFS).ret
        = (none, some (.wrapped (.noSuchFile "/cfg/app/kustomization.yaml")
            "target is neither a directory nor a file"))
      ∧ (NewLoader sample bareHost .RestrictionNone "/cfg/app/kustomization.yaml"
          appFS).calls
        = [.NewRepoSpecFromURL "/cfg/app/kustomization.yaml",
           .ConfirmDir "/cfg/app/kustomization.yaml",
           .Stat "/cfg/app/kustomization.yaml", .WrapPrefixf]
      ∧ (NewLoader sample appHost .RestrictionNone "/cfg/app/kustomization.yaml"
          appFS).ret
        = (some (.mk none "/cfg/app" .RestrictionNone (some "kustomization.yaml")
            appFS .gitExec none), none)
      ∧ (NewLoader sample bareHost .RestrictionNone "/cfg/app/kustomization.yaml"
          appFS).calls
        ≠ (NewLoader sample appHost .RestrictionNone "/cfg/app/kustomization.yaml"
          appFS).calls := by
  refine ⟨by decide, rfl, rfl, rfl, by decide⟩

/-- C8: for a target whose parse fails, `NewLoader` returns exactly one of a
loader and an error: with a non-nil error the loader is nil, and with a nil
error the loader is the one built by `newLoaderAtConfirmedDir` or by
`newLoaderAtConfirmedPath`. -/
theorem NewLoader_local_loader_xor_error
    (c : Collaborators RepoSpec FS LR Cloner Ldr Err Info Host)
    (host : Host) (lr : LR) (target : String) (fSys : FS) (e : Err)
    (hparse : c.NewRepoSpecFromURL target = .error e) :
    ((NewLoader c host lr target fSys).ret.2 ≠ none →
        (NewLoader c host lr target fSys).ret.1 = none)
      ∧ ((NewLoader c host lr target fSys).ret.2 = none →
          (∃ r, (NewLoader c host lr target fSys).ret.1
              = some (c.newLoaderAtConfirmedDir lr r fSys none c.ClonerUsingGitExec))
          ∨ (∃ r fileName, (NewLoader c host lr target fSys).ret.1
              = some (c.newLoaderAtConfirmedPath lr r fileName fSys none
                  c.ClonerUsingGitExec))) := by
  cases h2 : c.ConfirmDir fSys target with
  | ok r =>
    simp only [NewLoader, hparse, h2]
    exact ⟨fun h => absurd rfl h, fun _ => Or.inl ⟨r, rfl⟩⟩
  | error e2 =>
    cases h3 : c.Stat host target with
    | error e3 => simp [NewLoader, hparse, h2, h3]
    | ok info =>
      cases h4 : c.Abs host target with
      | error e4 => simp [NewLoader, hparse, h2, h3, h4]
      | ok p =>
        cases h5 : c.ConfirmDir fSys (c.Dir p) with
        | error e5 => simp [NewLoader, hparse, h2, h3, h4, h5]
        | ok r =>
          simp only [NewLoader, hparse, h2, h3, h4, h5]
          exact ⟨fun h => absurd rfl h, fun _ => Or.inr ⟨r, c.Name info, rfl⟩⟩

/-- C8 on the sample: `/nowhere` gives an error and no loader. -/
theorem NewLoader_local_loader_xor_error_witness :
    sample.NewRepoSpecFromURL "/nowhere" = .error (.notRemote "/nowhere")
      ∧ (NewLoader sample appHost .RestrictionRootOnly "/nowhere" appFS).ret.2
        = some (.wrapped (.noSuchFile "/nowhere")
            "target is neither a directory nor a file")
      ∧ (NewLoader sample appHost .RestrictionRootOnly "/nowhere" appFS).ret.1 = none :=
  ⟨rfl, rfl,
   (NewLoader_local_loader_xor_error sample appHost .RestrictionRootOnly "/nowhere"
      appFS (.notRemote "/nowhere") rfl).1 (by decide)⟩

/-- C9, counterexample: on a host that resolves the relative name
`kustomization.yaml` and cannot report its working directory, `filepath.Abs`
fails and `NewLoader` returns that very error value; it is not the result of
any `errors.WrapPrefixf`. -/
theorem NewLoader_abs_error_returned_raw :
    sample.NewRepoSpecFromURL "kustomization.yaml"
        = .error (.notRemote "kustomization.yaml")
      ∧ sample.Abs lostHost "kustomization.yaml" = .error .noWorkingDirectory
      ∧ (NewLoader sample lostHost .RestrictionNone "kustomization.yaml" appFS).ret
        = (none, some .noWorkingDirectory)
      ∧ ∀ (inner : SampleErr) (msg : String),
          (NewLoader sample lostHost .RestrictionNone "kustomization.yaml" appFS).ret
            ≠ (none, some (sample.WrapPrefixf inner msg)) := by
  refine ⟨rfl, rfl, rfl, ?_⟩
  intro inner msg h
  have h2 : (some SampleErr.noWorkingDirectory : Option SampleErr)
      = some (SampleErr.wrapped inner msg) := congrArg Prod.snd h
  cases h2

/-- C9, amended: of the errors `NewLoader` returns for a target whose parse and
`ConfirmDir` fail, the error of `os.Stat` is returned wrapped by
`errors.WrapPrefixf` with `ErrRtNotDirNorFile`'s message, and the errors of
`filepath.Abs` and of the `ConfirmDir` of the parent directory are returned
as they are. -/
theorem NewLoader_local_errors
    (c : Collaborators RepoSpec FS LR Cloner Ldr Err Info Host)
    (host : Host) (lr : LR) (target : String) (fSys : FS) (e1 e2 : Err)
    (hparse : c.NewRepoSpecFromURL target = .error e1)
    (hdir : c.ConfirmDir fSys target = .error e2) :
    (∀ e, c.Stat host target = .error e →
        (NewLoader c host lr target fSys).ret
          = (none, some (c.WrapPrefixf e (c.Error c.ErrRtNotDirNorFile))))
      ∧ (∀ info e, c.Stat host target = .ok info → c.Abs host target = .error e →
          (NewLoader c host lr target fSys).ret = (none, some e))
      ∧ (∀ info p e, c.Stat host target = .ok info → c.Abs host target = .ok p →
          c.ConfirmDir fSys (c.Dir p) = .error e →
          (NewLoader c host lr target fSys).ret = (none, some e)) := by
  refine ⟨?_, ?_, ?_⟩
  · intro e h3
    simp [NewLoader, hparse, hdir, h3]
  · intro info e h3 h4
    simp [NewLoader, hparse, hdir, h3, h4]
  · intro info p e h3 h4 h5
    simp [NewLoader, hparse, hdir, h3, h4, h5]

/-- C9, amended, on the sample: the stat error of `/missing.yaml` comes back
wrapped. -/
theorem NewLoader_local_errors_witness :
    sample.NewRepoSpecFromURL "/missing.yaml" = .error (.notRemote "/missing.yaml")
      ∧ sample.ConfirmDir appFS "/missing.yaml" = .error (.notDirectory "/missing.yaml")
      ∧ sample.Stat appHost "/missing.yaml" = .error (.noSuchFile "/missing.yaml")
      ∧ (NewLoader sample appHost .RestrictionNone "/missing.yaml" appFS).ret
        = (none, some (.wrapped (.noSuchFile "/missing.yaml")
            "target is neither a directory nor a file")) :=
  ⟨rfl, rfl, rfl,
   (NewLoader_local_errors sample appHost .RestrictionNone "/missing.yaml" appFS
      (.notRemote "/missing.yaml") (.notDirectory "/missing.yaml") rfl rfl).1
      (.noSuchFile "/missing.yaml") rfl⟩

/-! ## All branches -/

/-- C10: whatever `lr` and `target` are, the pair `NewLoader` returns is the
one of `newLoaderAtGitClone`, or a loader built by `newLoaderAtConfirmedDir`
or by `newLoaderAtConfirmedPath`, or an error without a loader; in each of
the three constructions the referrer is nil, the cloner is
`git.ClonerUsingGitExec` and the filesystem is the caller's `fSys`. -/
theorem NewLoader_constructs_top_level
    (c : Collaborators RepoSpec FS LR Cloner Ldr Err Info Host)
    (host : Host) (lr : LR) (target : String) (fSys : FS) :
    (∃ repoSpec, c.NewRepoSpecFromURL target = .ok repoSpec
        ∧ (NewLoader c host lr target fSys).ret
          = c.newLoaderAtGitClone host repoSpec fSys none c.ClonerUsingGitExec)
      ∨ (∃ r, c.ConfirmDir fSys target = .ok r
        ∧ (NewLoader c host lr target fSys).ret
          = (some (c.newLoaderAtConfirmedDir lr r fSys none c.ClonerUsingGitExec),
             none))
      ∨ (∃ info p r, c.Stat host target = .ok info ∧ c.Abs host target = .ok p
        ∧ c.ConfirmDir fSys (c.Dir p) = .ok r
        ∧ (NewLoader c host lr target fSys).ret
          = (some (c.newLoaderAtConfirmedPath lr r (c.Name info) fSys none
              c.ClonerUsingGitExec), none))
      ∨ (∃ err, (NewLoader c host lr target fSys).ret = (none, some err)) := by
  cases h1 : c.NewRepoSpecFromURL target with
  | ok repoSpec => simp [NewLoader, h1]
  | error e1 =>
    cases h2 : c.ConfirmDir fSys target with
    | ok r => simp [NewLoader, h1, h2]
    | error e2 =>
      cases h3 : c.Stat host target with
      | error e3 => simp [NewLoader, h1, h2, h3]
      | ok info =>
        cases h4 : c.Abs host target with
        | error e4 => simp [NewLoader, h1, h2, h3, h4]
        | ok p =>
          cases h5 : c.ConfirmDir fSys (c.Dir p) with
          | error e5 => simp [NewLoader, h1, h2, h3, h4, h5]
          | ok r => simp [NewLoader, h1, h2, h3, h4, h5]

end Theorems

end Kustomize
